import Mathlib

/-
Verification of the WingmanGPT command-line tool against its
natural-language specification.

The repository holds two versions of the same program:
  src/WingmanGPT/__main__.py  (namespace `WingmanGPT` below)
  src/src/__main__.py         (namespace `Src` below)

Both are sequential glue: validate CLI inputs, build a prompt string,
call the external completion service, confirm with the operator, and
shell out to an OS automation command.  The external collaborators
(ChatGPT client, the filesystem, the operator answer, the subprocess
outcome) are modelled by explicit `Files` and `Env` records, and each
run of the program is modelled as the list of observable effects
(printed lines and dispatched shell commands) it produces.
-/

/- ---------------------------------------------------------------
   Models of the Python built-ins the source calls.
   --------------------------------------------------------------- -/

/-- Python `str.isdigit`, character-wise: true for Unicode decimal digits
(category Nd) and digit-valued characters (Numeric_Type=Digit).  Tabulated
here over the code-point ranges exercised in this development: the ASCII
digits together with the common non-ASCII digit characters (the Latin-1
superscripts 0xB2/0xB3/0xB9, Arabic-Indic 0x660-0x669 and 0x6F0-0x6F9,
Devanagari 0x966-0x96F, the superscripts 0x2070 and 0x2074-0x2079, the
subscripts 0x2080-0x2089, and the fullwidth digits 0xFF10-0xFF19); every
code point listed satisfies Python `str.isdigit` and every other code
point in these ranges does not. -/
def pyIsdigit (c : Char) : Bool :=
  (0x30 ≤ c.toNat && c.toNat ≤ 0x39) ||
  c.toNat == 0xB2 || c.toNat == 0xB3 || c.toNat == 0xB9 ||
  (0x660 ≤ c.toNat && c.toNat ≤ 0x669) ||
  (0x6F0 ≤ c.toNat && c.toNat ≤ 0x6F9) ||
  (0x966 ≤ c.toNat && c.toNat ≤ 0x96F) ||
  c.toNat == 0x2070 || (0x2074 ≤ c.toNat && c.toNat ≤ 0x2079) ||
  (0x2080 ≤ c.toNat && c.toNat ≤ 0x2089) ||
  (0xFF10 ≤ c.toNat && c.toNat ≤ 0xFF19)

/-- Python slicing `s[1:-1]`: the characters of `s` from index 1 up to,
but not including, the last index. -/
def pySlice1m1 (s : String) : String :=
  String.mk ((s.data.drop 1).dropLast)

/-- The characters Python `shlex.quote` treats as safe: the ASCII
letters and digits together with `_` `@` `%` `+` `=` `:` `,` `.` `/`
and `-` (the word class of its unsafe-character regular expression,
compiled with `re.ASCII`). -/
def shlexSafe (c : Char) : Bool :=
  c.isAlphanum || c == '_' || c == '@' || c == '%' || c == '+' ||
  c == '=' || c == ':' || c == ',' || c == '.' || c == '/' || c == '-'

/-- Python `shlex.quote`: the empty string becomes a pair of single
quotes; a non-empty string of safe characters is returned unchanged
(no quotes added); any other string has its single quotes escaped and is
wrapped in single quotes. -/
def shlexQuote (s : String) : String :=
  if s = "" then "\x27\x27"
  else if s.data.all shlexSafe then s
  else "\x27" ++ (s.replace "\x27" "\x27\"\x27\"\x27") ++ "\x27"

/-- Python `str.lower`, character-wise, restricted to the ASCII case
mapping.  The program only ever compares the lowercased operator answer
with the one-letter string of the letter y; no character outside ASCII
lowercases to that letter, so the restriction is exact for every use in
the source. -/
def pyLowerChar (c : Char) : Char :=
  if 65 ≤ c.toNat ∧ c.toNat ≤ 90 then Char.ofNat (c.toNat + 32) else c

/-- Python `str.lower` on a whole string. -/
def pyLower (s : String) : String :=
  String.mk (s.data.map pyLowerChar)

/-- Python `" ".join(s)` applied to a string `s`: joining iterates the
characters of `s`, so the result intersperses a space between every two
consecutive characters of `s`. -/
def spaceJoin (s : String) : String :=
  String.intercalate " " (s.data.map Char.toString)

/-- Lookup in a Python dict built by inserting the given association
list in order: on duplicate keys the last insertion wins, so lookup
finds the last pair with the given key. -/
def dictGet (l : List (String × String)) (k : String) : Option String :=
  (l.reverse.find? (fun p => p.fst == k)).map Prod.snd

/-- Helper for `dictKeys`: emit each key at its first occurrence,
skipping keys already seen. -/
def dictKeysAux (seen : List String) : List (String × String) → List String
  | [] => []
  | p :: rest =>
    if p.fst ∈ seen then dictKeysAux seen rest
    else p.fst :: dictKeysAux (p.fst :: seen) rest

/-- Python `dict.keys()` of the dict built from the association list:
the distinct keys in first-insertion order. -/
def dictKeys (l : List (String × String)) : List String :=
  dictKeysAux [] l

/- ---------------------------------------------------------------
   Observable effects and the external world.
   --------------------------------------------------------------- -/

/-- An observable effect of a program run: a line printed to the
operator, or a shell command handed to the OS (the messaging dispatch). -/
inductive Effect where
  | print (s : String)
  | dispatch (cmd : String)
deriving DecidableEq

/-- Is this effect a messaging dispatch? -/
def isDispatchEff : Effect → Bool
  | .dispatch _ => true
  | .print _ => false

/-- Does the trace contain a messaging dispatch? -/
def hasDispatch (l : List Effect) : Bool :=
  l.any isDispatchEff

/-- The fallback files in the working directory: `none` means the file
does not exist, `some c` means it exists with content `c`. -/
structure Files where
  tokenFile : Option String
  messageFile : Option String
deriving DecidableEq

instance : DecidableEq (Except String String) := fun a b =>
  match a, b with
  | .ok x, .ok y => decidable_of_iff (x = y) (by simp)
  | .error x, .error y => decidable_of_iff (x = y) (by simp)
  | .ok _, .error _ => isFalse (fun h => Except.noConfusion h)
  | .error _, .ok _ => isFalse (fun h => Except.noConfusion h)

/-- The external collaborators of one run: the completion service
outcome (the final message string produced by the ChatGPT call, or an
error), the operator answer to the confirmation prompt, and the outcome
of the subprocess running the dispatch command. -/
structure Env where
  chatResponse : Except String String
  answer : String
  sendOk : Bool
  sendErr : String
deriving DecidableEq

/-- Both source files build the dispatch body identically
(`WingmanGPT.__send_message` in each): shell-escape the completion text
with `shlex.quote`, take the slice `[1:-1]`, and wrap the result in
double quotes. -/
def prepared_response (response : String) : String :=
  "\"" ++ pySlice1m1 (shlexQuote response) ++ "\""

/-- The full `osascript` shell command built by `__send_message` in both
source files. -/
def send_command (phone response : String) : String :=
  "osascript -e \x27tell application \"Messages\" to send " ++
    prepared_response response ++ " to buddy \"" ++ phone ++ "\"\x27"

/- ---------------------------------------------------------------
   src/WingmanGPT/__main__.py
   --------------------------------------------------------------- -/

namespace WingmanGPT

/-- `ResponseMode` dataclass of src/WingmanGPT/__main__.py. -/
structure ResponseMode where
  NAME : String
  PROMPT_MODIFICATION : String
deriving DecidableEq

/-- `PromptData` dataclass of src/WingmanGPT/__main__.py; the
`DEFAULT_MODE` field has the dataclass default "ROMANTIC". -/
structure PromptData where
  PREFIX : String
  SUFFIX : String
  MODES : List ResponseMode
  DEFAULT_MODE : String := "ROMANTIC"
deriving DecidableEq

/-- The association list underlying the dict comprehension
`{m.NAME: m.PROMPT_MODIFICATION for m in MODES}` in
`__get_mode_modification`. -/
def available_modes (pd : PromptData) : List (String × String) :=
  pd.MODES.map (fun m => (m.NAME, m.PROMPT_MODIFICATION))

/-- `WingmanGPT.__get_phone_number`: error unless the input is a
10-character string of digit characters (`str.isdigit`); returns the
input unchanged on success. -/
def get_phone_number (number : String) : Except String String :=
  if number.length ≠ 10 then .error "Invalid phone number"
  else if number.data.all pyIsdigit then .ok number
  else .error "Invalid phone number"

/-- `WingmanGPT.__get_token`: the flag value if it is a non-empty
string, else the token file content if the file exists and is
non-empty, else an error. -/
def get_token (token : Option String) (tokenFile : Option String) :
    Except String String :=
  match token with
  | some t =>
    if t ≠ "" then .ok t
    else match tokenFile with
      | some c => if c ≠ "" then .ok c
                  else .error "No token provided or found in token file"
      | none => .error "No token provided or found in token file"
  | none =>
    match tokenFile with
    | some c => if c ≠ "" then .ok c
                else .error "No token provided or found in token file"
    | none => .error "No token provided or found in token file"

/-- `WingmanGPT.__get_message`: the flag value if it is a non-empty
string, else the message.txt content if the file exists and is
non-empty, else an error. -/
def get_message (message : Option String) (messageFile : Option String) :
    Except String String :=
  match message with
  | some m =>
    if m ≠ "" then .ok m
    else match messageFile with
      | some c => if c ≠ "" then .ok c
                  else .error "No message provided or found in message.txt"
      | none => .error "No message provided or found in message.txt"
  | none =>
    match messageFile with
    | some c => if c ≠ "" then .ok c
                else .error "No message provided or found in message.txt"
    | none => .error "No message provided or found in message.txt"

/-- `WingmanGPT.__get_mode_modification`: when the mode is absent or
the empty string, look up the default mode in the dict of available
modes (a missing default is a Python `KeyError`); an unknown provided
mode is an error listing the dict keys; otherwise look the mode up. -/
def get_mode_modification (pd : PromptData) (mode_str : Option String) :
    Except String String :=
  let am := available_modes pd
  let defaultCase : Except String String :=
    match dictGet am pd.DEFAULT_MODE with
    | some m => .ok m
    | none => .error ("KeyError: " ++ pd.DEFAULT_MODE)
  match mode_str with
  | none => defaultCase
  | some s =>
    if s = "" then defaultCase
    else match dictGet am s with
      | some m => .ok m
      | none => .error ("Invalid mode: " ++ s ++ "\n Available modes: " ++
          String.intercalate ", " (dictKeys am))

/-- `WingmanGPT.__get_prompt`: fixed concatenation of the PREFIX, the
quoted message, the quoted mode modification, and the SUFFIX. -/
def get_prompt (pd : PromptData) (message mode_modification : String) :
    String :=
  pd.PREFIX ++
    (" Here is the message: \"" ++ message ++ "\".") ++
    (" Here is how I want you to modify the message: \"" ++
      mode_modification ++ "\".") ++
    pd.SUFFIX

/-- `WingmanGPT.__get_response`: the completion call is external; its
final message string comes from the environment, and the adapter
returns it with the slice `[1:-1]` applied. -/
def get_response (env : Env) : Except String String :=
  match env.chatResponse with
  | .error e => .error e
  | .ok raw => .ok (pySlice1m1 raw)

/-- `WingmanGPT.execute`: report a completion failure; otherwise show
the text and ask for confirmation when required, skipping the dispatch
unless the lowercased answer is the letter y; on dispatch, run the
command and report the outcome. -/
def execute (phone : String) (wants_confirm : Bool) (env : Env) :
    List Effect :=
  match get_response env with
  | .error e => [.print e, .print "Failed to get response from ChatGPT API"]
  | .ok response =>
    let sendPart : List Effect :=
      .dispatch (send_command phone response) ::
        (if env.sendOk then [.print "Message Sent."]
         else [.print "Failed to send message."])
    if wants_confirm then
      .print ("********\nMessage: " ++ response ++ "\n********") ::
        (if pyLower env.answer ≠ "y" then [.print "Message not sent."]
         else sendPart)
    else sendPart

end WingmanGPT

/- ---------------------------------------------------------------
   src/src/__main__.py
   --------------------------------------------------------------- -/

namespace Src

/-- `ResponseMode` dataclass of src/src/__main__.py. -/
structure ResponseMode where
  NAME : String
  DESCRIPTION : String
  PROMPT_MODIFICATION : String
deriving DecidableEq

/-- `PromptData` dataclass of src/src/__main__.py. -/
structure PromptData where
  PREFIX : String
  SUFFIX : String
  MODES : List ResponseMode
  DEFAULT_MODE : String
deriving DecidableEq

/-- `PromptData.show_modes`: print the header line, then one line per
mode with a tab, the name, a colon and the description. -/
def show_modes (pd : PromptData) : List Effect :=
  .print "AVAILABLE MODES:" ::
    pd.MODES.map (fun m => .print ("\t" ++ m.NAME ++ ": " ++ m.DESCRIPTION))

/-- The association list underlying the dict comprehension
`{m.NAME: m.PROMPT_MODIFICATION for m in MODES}` in
`__get_mode_modification`. -/
def available_modes (pd : PromptData) : List (String × String) :=
  pd.MODES.map (fun m => (m.NAME, m.PROMPT_MODIFICATION))

/-- `WingmanGPT.__get_phone_number` of src/src/__main__.py
(character-identical to the src/WingmanGPT version). -/
def get_phone_number (number : String) : Except String String :=
  if number.length ≠ 10 then .error "Invalid phone number"
  else if number.data.all pyIsdigit then .ok number
  else .error "Invalid phone number"

/-- `WingmanGPT.__get_token` of src/src/__main__.py. -/
def get_token (token : Option String) (tokenFile : Option String) :
    Except String String :=
  match token with
  | some t =>
    if t ≠ "" then .ok t
    else match tokenFile with
      | some c => if c ≠ "" then .ok c
                  else .error "No token provided or found in token file"
      | none => .error "No token provided or found in token file"
  | none =>
    match tokenFile with
    | some c => if c ≠ "" then .ok c
                else .error "No token provided or found in token file"
    | none => .error "No token provided or found in token file"

/-- `WingmanGPT.__get_message` of src/src/__main__.py. -/
def get_message (message : Option String) (messageFile : Option String) :
    Except String String :=
  match message with
  | some m =>
    if m ≠ "" then .ok m
    else match messageFile with
      | some c => if c ≠ "" then .ok c
                  else .error "No message provided or found in message.txt"
      | none => .error "No message provided or found in message.txt"
  | none =>
    match messageFile with
    | some c => if c ≠ "" then .ok c
                else .error "No message provided or found in message.txt"
    | none => .error "No message provided or found in message.txt"

/-- The run of 28 spaces that the backslash line continuation inside the
invalid-mode f-string of src/src/__main__.py embeds into the message
(the leading indentation of the continuation line). -/
def errPad : String := String.mk (List.replicate 28 ' ')

/-- `WingmanGPT.__get_mode_modification` of src/src/__main__.py; the
only difference from the src/WingmanGPT version is the line-continuation
padding inside the error message. -/
def get_mode_modification (pd : PromptData) (mode_str : Option String) :
    Except String String :=
  let am := available_modes pd
  let defaultCase : Except String String :=
    match dictGet am pd.DEFAULT_MODE with
    | some m => .ok m
    | none => .error ("KeyError: " ++ pd.DEFAULT_MODE)
  match mode_str with
  | none => defaultCase
  | some s =>
    if s = "" then defaultCase
    else match dictGet am s with
      | some m => .ok m
      | none => .error ("Invalid mode: " ++ s ++ "\n Available modes: " ++
          errPad ++ String.intercalate ", " (dictKeys am))

/-- `WingmanGPT.__get_prompt` of src/src/__main__.py: this version
applies `" ".join(...)` to the PREFIX and SUFFIX strings, which
intersperses a space between their characters. -/
def get_prompt (pd : PromptData) (message mode_modification : String) :
    String :=
  spaceJoin pd.PREFIX ++
    (" Here is the message: \"" ++ message ++ "\".") ++
    " Here is how I want you to modify the message: " ++
    ("\"" ++ mode_modification ++ "\".") ++
    spaceJoin pd.SUFFIX

/-- `WingmanGPT.__get_response` of src/src/__main__.py. -/
def get_response (env : Env) : Except String String :=
  match env.chatResponse with
  | .error e => .error e
  | .ok raw => .ok (pySlice1m1 raw)

/-- The state built by `WingmanGPT.__init__` of src/src/__main__.py. -/
structure Wingman where
  phone : String
  token : String
  message : String
  wants_confirm : Bool
  mode_modification : String
deriving DecidableEq

/-- `WingmanGPT.__init__` of src/src/__main__.py: validate the phone
number, the token, the message and the mode, in that order, the first
failure aborting construction. -/
def init (number : String) (noconfirm : Bool)
    (token message mode : Option String) (pd : PromptData)
    (files : Files) : Except String Wingman := do
  let ph ← get_phone_number number
  let tk ← get_token token files.tokenFile
  let msg ← get_message message files.messageFile
  let mm ← get_mode_modification pd mode
  return ⟨ph, tk, msg, !noconfirm, mm⟩

/-- `WingmanGPT.execute` of src/src/__main__.py: like the
src/WingmanGPT version, but a dispatch failure is re-raised by
`__send_message` with a wrapping message and printed by `execute` with
its own wrapping. -/
def execute (phone : String) (wants_confirm : Bool) (env : Env) :
    List Effect :=
  match get_response env with
  | .error e => [.print e, .print "Failed to get response from ChatGPT API"]
  | .ok response =>
    let sendPart : List Effect :=
      .dispatch (send_command phone response) ::
        (if env.sendOk then [.print "Message Sent."]
         else [.print ("Failed to send message. \n\nFailed to send message: \n\n"
                        ++ env.sendErr)])
    if wants_confirm then
      .print ("********\nMessage: " ++ response ++ "\n********") ::
        (if pyLower env.answer ≠ "y" then [.print "Message not sent."]
         else sendPart)
    else sendPart

/-- `main` of src/src/__main__.py: load the prompt data (outcome given
by `cfg`), on failure report and stop; with `--show-modes` print the
modes and stop; without a number report and stop; otherwise construct
the `WingmanGPT` object and run `execute`. -/
def main (cfg : Except String PromptData) (number : Option String)
    (noconfirm : Bool) (token message mode : Option String)
    (showModes : Bool) (files : Files) (env : Env) : List Effect :=
  match cfg with
  | .error e => [.print ("Error occurred: " ++ e)]
  | .ok pd =>
    if showModes then show_modes pd
    else match number with
      | none => [.print "Phone number is required."]
      | some num =>
        match init num noconfirm token message mode pd files with
        | .error e => [.print ("Error occurred: " ++ e)]
        | .ok w => execute w.phone w.wants_confirm env

end Src

/- ---------------------------------------------------------------
   Concrete inputs used by the witnesses and counterexamples.
   --------------------------------------------------------------- -/

/-- The prompt template of the specification scenario (prefix
"Rewrite:", suffix "Done.", a single ROMANTIC mode, default ROMANTIC),
as loaded by src/WingmanGPT/__main__.py. -/
def c1_template_W : WingmanGPT.PromptData :=
  ⟨"Rewrite:", "Done.", [⟨"ROMANTIC", "make it romantic"⟩], "ROMANTIC"⟩

/-- The same template as loaded by src/src/__main__.py (its
`ResponseMode` also carries a description, absent from the scenario). -/
def c1_template_S : Src.PromptData :=
  ⟨"Rewrite:", "Done.", [⟨"ROMANTIC", "", "make it romantic"⟩], "ROMANTIC"⟩

/-- The instruction string the specification scenario claims the prompt
builder produces. -/
def c1_claimed : String :=
  "Rewrite: Here is the message: \"hi\". Here is how I want you to modify the message: \"make it romantic\".Done."

/-- A small two-mode template for src/WingmanGPT/__main__.py. -/
def samplePD_W : WingmanGPT.PromptData :=
  ⟨"P", "S",
    [⟨"ROMANTIC", "make it romantic"⟩, ⟨"FUNNY", "make it funny"⟩],
    "ROMANTIC"⟩

/-- A small two-mode template for src/src/__main__.py. -/
def samplePD_S : Src.PromptData :=
  ⟨"P", "S",
    [⟨"ROMANTIC", "a romantic tone", "make it romantic"⟩,
     ⟨"FUNNY", "a funny tone", "make it funny"⟩],
    "ROMANTIC"⟩

/-- Sample working-directory fallback files. -/
def sampleFiles : Files := ⟨some "a token", some "a message"⟩

/-- A sample run environment: the completion call yields "xhellox" and
the operator answers "n" to the confirmation prompt. -/
def sampleEnv : Env := ⟨.ok "xhellox", "n", true, ""⟩

/-- A sample run environment whose raw completion is a quoted word. -/
def c9_env : Env := ⟨.ok "\"hey\"", "n", true, ""⟩

/- ---------------------------------------------------------------
   Helper lemmas.
   --------------------------------------------------------------- -/

theorem toNat_ofNat_valid (m : Nat) (h : m.isValidChar) :
    (Char.ofNat m).toNat = m := by
  rw [Char.ofNat, dif_pos h]
  rfl

theorem pyLowerChar_eq_y (c : Char) :
    pyLowerChar c = 'y' ↔ c = 'y' ∨ c = 'Y' := by
  constructor
  · intro h
    unfold pyLowerChar at h
    split at h
    · rename_i hrange
      have hv : (c.toNat + 32).isValidChar := Or.inl (by omega)
      have h121 : c.toNat + 32 = 121 := by
        have := congrArg Char.toNat h
        rwa [toNat_ofNat_valid _ hv] at this
      have h89 : c.toNat = 89 := by omega
      right
      have := Char.ofNat_toNat c
      rw [h89] at this
      exact this.symm
    · exact Or.inl h
  · rintro (rfl | rfl) <;> decide

theorem map_pyLowerChar_eq_y (l : List Char) :
    l.map pyLowerChar = ['y'] ↔ l = ['y'] ∨ l = ['Y'] := by
  match l with
  | [] => simp
  | [c] => simp [pyLowerChar_eq_y]
  | c1 :: c2 :: t => simp

theorem pyLower_ne_y {s : String} (hy : s ≠ "y") (hY : s ≠ "Y") :
    pyLower s ≠ "y" := by
  intro h
  have hdata : s.data.map pyLowerChar = ['y'] := congrArg String.data h
  rcases (map_pyLowerChar_eq_y s.data).mp hdata with h1 | h1
  · exact hy (by cases s; simp_all)
  · exact hY (by cases s; simp_all)

theorem mem_dictKeysAux (l : List (String × String)) :
    ∀ (seen : List String) (n : String),
      n ∈ dictKeysAux seen l ↔ (n ∉ seen ∧ n ∈ l.map Prod.fst) := by
  induction l with
  | nil => intro seen n; simp [dictKeysAux]
  | cons p rest ih =>
    intro seen n
    by_cases hp : p.fst ∈ seen
    · rw [dictKeysAux, if_pos hp, ih]
      constructor
      · rintro ⟨hns, hmem⟩
        exact ⟨hns, by simp [hmem]⟩
      · rintro ⟨hns, hmem⟩
        refine ⟨hns, ?_⟩
        simp only [List.map_cons, List.mem_cons] at hmem
        rcases hmem with rfl | hmem
        · exact absurd hp (by simpa using hns)
        · exact hmem
    · rw [dictKeysAux, if_neg hp]
      simp only [List.mem_cons, ih, List.mem_cons, List.map_cons]
      constructor
      · rintro (rfl | ⟨hns, hmem⟩)
        · exact ⟨hp, Or.inl rfl⟩
        · exact ⟨fun hc => hns (Or.inr hc), Or.inr hmem⟩
      · rintro ⟨hns, rfl | hmem⟩
        · exact Or.inl rfl
        · by_cases hnp : n = p.fst
          · exact Or.inl hnp
          · exact Or.inr ⟨by simp [hnp, hns], hmem⟩

theorem nodup_dictKeysAux (l : List (String × String)) :
    ∀ seen : List String, (dictKeysAux seen l).Nodup := by
  induction l with
  | nil => intro seen; simp [dictKeysAux]
  | cons p rest ih =>
    intro seen
    by_cases hp : p.fst ∈ seen
    · rw [dictKeysAux, if_pos hp]; exact ih seen
    · rw [dictKeysAux, if_neg hp]
      refine List.nodup_cons.mpr ⟨?_, ih _⟩
      intro hmem
      exact ((mem_dictKeysAux rest _ _).mp hmem).1 (List.mem_cons_self _ _)

theorem mem_dictKeys (l : List (String × String)) (n : String) :
    n ∈ dictKeys l ↔ n ∈ l.map Prod.fst := by
  rw [dictKeys, mem_dictKeysAux]
  simp

theorem nodup_dictKeys (l : List (String × String)) : (dictKeys l).Nodup :=
  nodup_dictKeysAux l []

theorem dictGet_eq_none (l : List (String × String)) (k : String) :
    dictGet l k = none ↔ k ∉ l.map Prod.fst := by
  rw [dictGet, Option.map_eq_none', List.find?_eq_none]
  constructor
  · intro h hk
    rcases List.mem_map.mp hk with ⟨p, hp, rfl⟩
    exact h p (List.mem_reverse.mpr hp) (by simp)
  · intro h p hp hbeq
    exact h (List.mem_map.mpr ⟨p, List.mem_reverse.mp hp, (by simpa using hbeq)⟩)

theorem dictGet_some_mem {l : List (String × String)} {k v : String}
    (h : dictGet l k = some v) : (k, v) ∈ l := by
  rw [dictGet] at h
  rcases Option.map_eq_some.mp h with ⟨p, hp, rfl⟩
  have h1 : p.fst = k := by simpa using List.find?_some hp
  have h2 : p ∈ l := List.mem_reverse.mp (List.mem_of_find?_eq_some hp)
  have : p = (k, p.snd) := by rw [← h1]
  rwa [← this]

theorem dictGet_isSome_of_mem {l : List (String × String)} {k : String}
    (h : k ∈ l.map Prod.fst) : ∃ v, dictGet l k = some v := by
  rcases List.mem_map.mp h with ⟨p, hp, rfl⟩
  have : (l.reverse.find? (fun q => q.fst == p.fst)).isSome :=
    List.find?_isSome.mpr ⟨p, List.mem_reverse.mpr hp, by simp⟩
  rcases Option.isSome_iff_exists.mp this with ⟨q, hq⟩
  exact ⟨q.snd, by rw [dictGet, hq]; rfl⟩

theorem pySlice1m1_length (s : String) :
    (pySlice1m1 s).length = s.length - 2 := by
  show ((s.data.drop 1).dropLast).length = s.data.length - 2
  rw [List.length_dropLast, List.length_drop]
  omega

/- ---------------------------------------------------------------
   Claims.
   --------------------------------------------------------------- -/

/-- C1 (counterexample): the claim fails for the prompt builder of
src/src/__main__.py.  With the scenario template (string prefix
"Rewrite:", suffix "Done.", single ROMANTIC mode as default), message
"hi" and the mode omitted, mode resolution does yield "make it
romantic", but that builder does not return the claimed instruction
string: its `" ".join` over the prefix and suffix strings intersperses
spaces between their characters. -/
theorem c1_counterexample :
    Src.get_mode_modification c1_template_S none = .ok "make it romantic" ∧
    Src.get_prompt c1_template_S "hi" "make it romantic" ≠ c1_claimed := by
  constructor
  · rfl
  · decide

/-- C1 (amended): for the scenario template and message "hi" with the
mode omitted, the prompt builder of src/WingmanGPT/__main__.py returns
exactly the claimed instruction string, while the builder of
src/src/__main__.py returns the same instruction with the characters of
the prefix and of the suffix separated by single spaces. -/
theorem c1_amended :
    WingmanGPT.get_mode_modification c1_template_W none = .ok "make it romantic" ∧
    WingmanGPT.get_prompt c1_template_W "hi" "make it romantic" = c1_claimed ∧
    Src.get_prompt c1_template_S "hi" "make it romantic" =
      "R e w r i t e : Here is the message: \"hi\". Here is how I want you to modify the message: \"make it romantic\".D o n e ." :=
  ⟨rfl, rfl, rfl⟩

/-- C2: evaluation of the dispatch-body construction at the completion
text "hello".  `shlex.quote` returns a string of safe characters
unchanged, with no surrounding quote characters, so the unconditional
slice `[1:-1]` removes the first and the last character of the
completion text itself: the body handed to the messaging command is
`"ell"`, not `"hello"`.  This contradicts the claim that only the
escaping tool's own surrounding quotes are stripped and nothing of the
original text. -/
theorem c2_code_eval :
    shlexQuote "hello" = "hello" ∧ prepared_response "hello" = "\"ell\"" :=
  ⟨rfl, rfl⟩

/-- C3 (amended): phone-number validation accepts a string, returning
it unchanged, if and only if it is exactly 10 characters long and every
character satisfies Python `str.isdigit` (Unicode digits, not only
ASCII digits); every other string fails with the validation error
"Invalid phone number". -/
theorem c3_amended (s : String) :
    (WingmanGPT.get_phone_number s = .ok s ↔
      (s.length = 10 ∧ s.data.all pyIsdigit = true)) ∧
    (WingmanGPT.get_phone_number s ≠ .ok s →
      WingmanGPT.get_phone_number s = .error "Invalid phone number") := by
  constructor
  · by_cases h10 : s.length = 10 <;> by_cases hall : s.data.all pyIsdigit = true <;>
      simp [WingmanGPT.get_phone_number, h10, hall]
  · intro h
    by_cases h10 : s.length = 10 <;> by_cases hall : s.data.all pyIsdigit = true <;>
      simp [WingmanGPT.get_phone_number, h10, hall] at h ⊢

/-- C3 (witness): the all-ASCII-digit string "1234567890" is accepted
and the 5-character string "12345" is rejected with the validation
error. -/
theorem c3_witness :
    WingmanGPT.get_phone_number "1234567890" = .ok "1234567890" ∧
    WingmanGPT.get_phone_number "12345" = .error "Invalid phone number" :=
  ⟨(c3_amended "1234567890").1.mpr (by decide),
   (c3_amended "12345").2 (by decide)⟩

/-- C3 (counterexample): the 10-character string of superscript-two
characters (U+00B2, a Unicode digit but not an ASCII digit) is accepted
by phone-number validation, refuting the claim that only strings of
ASCII digits are accepted. -/
theorem c3_counterexample :
    WingmanGPT.get_phone_number "²²²²²²²²²²" = .ok "²²²²²²²²²²" ∧
    ("²²²²²²²²²²".data.all Char.isDigit) = false :=
  ⟨rfl, rfl⟩

/-- C4: whenever the mode argument is omitted (absent or the empty
string), mode resolution in both source versions returns the
prompt-modification instruction of a configured mode whose name equals
the template's default-mode field (the hypothesis that such a mode
exists is the data-model invariant of the specification). -/
theorem c4_default_mode (pdW : WingmanGPT.PromptData) (pdS : Src.PromptData)
    (mode_str : Option String)
    (homit : mode_str = none ∨ mode_str = some "")
    (hW : pdW.DEFAULT_MODE ∈ pdW.MODES.map WingmanGPT.ResponseMode.NAME)
    (hS : pdS.DEFAULT_MODE ∈ pdS.MODES.map Src.ResponseMode.NAME) :
    (∃ m ∈ pdW.MODES, m.NAME = pdW.DEFAULT_MODE ∧
      WingmanGPT.get_mode_modification pdW mode_str = .ok m.PROMPT_MODIFICATION) ∧
    (∃ m ∈ pdS.MODES, m.NAME = pdS.DEFAULT_MODE ∧
      Src.get_mode_modification pdS mode_str = .ok m.PROMPT_MODIFICATION) := by
  constructor
  · have hW' : pdW.DEFAULT_MODE ∈ (WingmanGPT.available_modes pdW).map Prod.fst := by
      simpa [WingmanGPT.available_modes, List.map_map, Function.comp] using hW
    rcases dictGet_isSome_of_mem hW' with ⟨v, hv⟩
    rcases List.mem_map.mp (dictGet_some_mem hv) with ⟨m, hm, hpair⟩
    have hn : m.NAME = pdW.DEFAULT_MODE := congrArg Prod.fst hpair
    have hmod : m.PROMPT_MODIFICATION = v := congrArg Prod.snd hpair
    refine ⟨m, hm, hn, ?_⟩
    rcases homit with rfl | rfl <;>
      simp [WingmanGPT.get_mode_modification, hv, hmod]
  · have hS' : pdS.DEFAULT_MODE ∈ (Src.available_modes pdS).map Prod.fst := by
      simpa [Src.available_modes, List.map_map, Function.comp] using hS
    rcases dictGet_isSome_of_mem hS' with ⟨v, hv⟩
    rcases List.mem_map.mp (dictGet_some_mem hv) with ⟨m, hm, hpair⟩
    have hn : m.NAME = pdS.DEFAULT_MODE := congrArg Prod.fst hpair
    have hmod : m.PROMPT_MODIFICATION = v := congrArg Prod.snd hpair
    refine ⟨m, hm, hn, ?_⟩
    rcases homit with rfl | rfl <;>
      simp [Src.get_mode_modification, hv, hmod]

/-- C4 (witness): on the sample two-mode templates with default
ROMANTIC and the mode argument absent, resolution returns the ROMANTIC
instruction in both versions. -/
theorem c4_witness :
    (∃ m ∈ samplePD_W.MODES, m.NAME = samplePD_W.DEFAULT_MODE ∧
      WingmanGPT.get_mode_modification samplePD_W none = .ok m.PROMPT_MODIFICATION) ∧
    (∃ m ∈ samplePD_S.MODES, m.NAME = samplePD_S.DEFAULT_MODE ∧
      Src.get_mode_modification samplePD_S none = .ok m.PROMPT_MODIFICATION) :=
  c4_default_mode samplePD_W samplePD_S none (Or.inl rfl) (by decide) (by decide)

/-- C5: for every provided, non-empty mode name matching no configured
mode, validation in both source versions fails with an error message
that embeds the joined list of dict keys, and that key list contains
every configured mode name, each exactly once (it is duplicate-free and
its members are exactly the configured names). -/
theorem c5_unknown_mode (pdW : WingmanGPT.PromptData) (pdS : Src.PromptData)
    (s : String) (hs : s ≠ "")
    (hWout : s ∉ pdW.MODES.map WingmanGPT.ResponseMode.NAME)
    (hSout : s ∉ pdS.MODES.map Src.ResponseMode.NAME) :
    (WingmanGPT.get_mode_modification pdW (some s) =
        .error ("Invalid mode: " ++ s ++ "\n Available modes: " ++
          String.intercalate ", " (dictKeys (WingmanGPT.available_modes pdW))) ∧
      (dictKeys (WingmanGPT.available_modes pdW)).Nodup ∧
      (∀ n, n ∈ dictKeys (WingmanGPT.available_modes pdW) ↔
        n ∈ pdW.MODES.map WingmanGPT.ResponseMode.NAME)) ∧
    (Src.get_mode_modification pdS (some s) =
        .error ("Invalid mode: " ++ s ++ "\n Available modes: " ++ Src.errPad ++
          String.intercalate ", " (dictKeys (Src.available_modes pdS))) ∧
      (dictKeys (Src.available_modes pdS)).Nodup ∧
      (∀ n, n ∈ dictKeys (Src.available_modes pdS) ↔
        n ∈ pdS.MODES.map Src.ResponseMode.NAME)) := by
  constructor
  · have hnone : dictGet (WingmanGPT.available_modes pdW) s = none :=
      (dictGet_eq_none _ _).mpr
        (by simpa [WingmanGPT.available_modes, List.map_map, Function.comp] using hWout)
    refine ⟨?_, nodup_dictKeys _, fun n => ?_⟩
    · simp [WingmanGPT.get_mode_modification, hs, hnone]
    · rw [mem_dictKeys]
      simp [WingmanGPT.available_modes, List.map_map, Function.comp]
  · have hnone : dictGet (Src.available_modes pdS) s = none :=
      (dictGet_eq_none _ _).mpr
        (by simpa [Src.available_modes, List.map_map, Function.comp] using hSout)
    refine ⟨?_, nodup_dictKeys _, fun n => ?_⟩
    · simp [Src.get_mode_modification, hs, hnone]
    · rw [mem_dictKeys]
      simp [Src.available_modes, List.map_map, Function.comp]

/-- C5 (witness): the unknown mode name "SASSY" on the sample two-mode
templates is rejected in both versions with the error listing the key
list, which is duplicate-free and holds exactly the configured names. -/
theorem c5_witness :
    (WingmanGPT.get_mode_modification samplePD_W (some "SASSY") =
        .error ("Invalid mode: SASSY\n Available modes: " ++
          String.intercalate ", " (dictKeys (WingmanGPT.available_modes samplePD_W))) ∧
      (dictKeys (WingmanGPT.available_modes samplePD_W)).Nodup ∧
      (∀ n, n ∈ dictKeys (WingmanGPT.available_modes samplePD_W) ↔
        n ∈ samplePD_W.MODES.map WingmanGPT.ResponseMode.NAME)) ∧
    (Src.get_mode_modification samplePD_S (some "SASSY") =
        .error ("Invalid mode: SASSY\n Available modes: " ++ Src.errPad ++
          String.intercalate ", " (dictKeys (Src.available_modes samplePD_S))) ∧
      (dictKeys (Src.available_modes samplePD_S)).Nodup ∧
      (∀ n, n ∈ dictKeys (Src.available_modes samplePD_S) ↔
        n ∈ samplePD_S.MODES.map Src.ResponseMode.NAME)) :=
  c5_unknown_mode samplePD_W samplePD_S "SASSY" (by decide) (by decide) (by decide)

/-- C6: with the show-modes flag set, the program dispatches no message
whatever the number, token, message and mode inputs are and whatever
the configuration outcome is; and whenever the configuration loads, the
run prints exactly the header line followed by one line per configured
mode with its name and description, and nothing else. -/
theorem c6_show_modes (cfg : Except String Src.PromptData)
    (number token message mode : Option String) (noconfirm : Bool)
    (files : Files) (env : Env) :
    hasDispatch (Src.main cfg number noconfirm token message mode true files env) = false ∧
    (∀ pd, cfg = .ok pd →
      Src.main cfg number noconfirm token message mode true files env =
        Effect.print "AVAILABLE MODES:" ::
          pd.MODES.map (fun m => Effect.print ("\t" ++ m.NAME ++ ": " ++ m.DESCRIPTION))) := by
  cases cfg with
  | error e =>
    refine ⟨by simp [Src.main, hasDispatch, isDispatchEff], ?_⟩
    intro pd h
    exact absurd h (by simp)
  | ok pd0 =>
    constructor
    · simp [Src.main, Src.show_modes, hasDispatch, isDispatchEff, List.any_map,
        Function.comp]
    · intro pd h
      have : pd0 = pd := by injection h
      subst this
      simp [Src.main, Src.show_modes]

/-- C6 (witness): with the show-modes flag and a loaded sample template,
but no number, token or message, the run prints the mode listing and
dispatches nothing. -/
theorem c6_witness :
    hasDispatch (Src.main (.ok samplePD_S) none false none none none true
      sampleFiles sampleEnv) = false ∧
    Src.main (.ok samplePD_S) none false none none none true
        sampleFiles sampleEnv =
      Effect.print "AVAILABLE MODES:" ::
        samplePD_S.MODES.map
          (fun m => Effect.print ("\t" ++ m.NAME ++ ": " ++ m.DESCRIPTION)) :=
  ⟨(c6_show_modes (.ok samplePD_S) none none none none false sampleFiles sampleEnv).1,
   (c6_show_modes (.ok samplePD_S) none none none none false sampleFiles sampleEnv).2
     samplePD_S rfl⟩

/-- C7: in the confirmation step, for every operator answer other than
"y" or "Y", both versions of the controller produce exactly the message
banner followed by the line "Message not sent." and dispatch nothing. -/
theorem c7_confirm_no_dispatch (phone : String) (env : Env) (raw : String)
    (hresp : env.chatResponse = .ok raw)
    (hy : env.answer ≠ "y") (hY : env.answer ≠ "Y") :
    WingmanGPT.execute phone true env =
      [.print ("********\nMessage: " ++ pySlice1m1 raw ++ "\n********"),
       .print "Message not sent."] ∧
    Src.execute phone true env =
      [.print ("********\nMessage: " ++ pySlice1m1 raw ++ "\n********"),
       .print "Message not sent."] ∧
    hasDispatch (WingmanGPT.execute phone true env) = false ∧
    hasDispatch (Src.execute phone true env) = false := by
  have hne : pyLower env.answer ≠ "y" := pyLower_ne_y hy hY
  have hW : WingmanGPT.execute phone true env =
      [.print ("********\nMessage: " ++ pySlice1m1 raw ++ "\n********"),
       .print "Message not sent."] := by
    simp [WingmanGPT.execute, WingmanGPT.get_response, hresp, hne]
  have hS : Src.execute phone true env =
      [.print ("********\nMessage: " ++ pySlice1m1 raw ++ "\n********"),
       .print "Message not sent."] := by
    simp [Src.execute, Src.get_response, hresp, hne]
  refine ⟨hW, hS, ?_, ?_⟩
  · rw [hW]; rfl
  · rw [hS]; rfl

/-- C7 (witness): with completion text "xhellox" and the operator answer
"n", both versions print the banner and "Message not sent." and
dispatch nothing. -/
theorem c7_witness :
    WingmanGPT.execute "1234567890" true sampleEnv =
      [.print ("********\nMessage: " ++ pySlice1m1 "xhellox" ++ "\n********"),
       .print "Message not sent."] ∧
    Src.execute "1234567890" true sampleEnv =
      [.print ("********\nMessage: " ++ pySlice1m1 "xhellox" ++ "\n********"),
       .print "Message not sent."] ∧
    hasDispatch (WingmanGPT.execute "1234567890" true sampleEnv) = false ∧
    hasDispatch (Src.execute "1234567890" true sampleEnv) = false :=
  c7_confirm_no_dispatch "1234567890" sampleEnv "xhellox" rfl
    (by decide) (by decide)

/-- C8: message-body resolution in both versions uses the flag value
when it is a non-empty string; otherwise it uses the fallback file
content when the file exists with non-empty content; otherwise it fails
with the validation error — in exactly that precedence order. -/
theorem c8_message_precedence (message fileContent : Option String) :
    (∀ m, message = some m → m ≠ "" →
      WingmanGPT.get_message message fileContent = .ok m ∧
      Src.get_message message fileContent = .ok m) ∧
    ((message = none ∨ message = some "") →
      ∀ c, fileContent = some c → c ≠ "" →
        WingmanGPT.get_message message fileContent = .ok c ∧
        Src.get_message message fileContent = .ok c) ∧
    ((message = none ∨ message = some "") →
      (fileContent = none ∨ fileContent = some "") →
        WingmanGPT.get_message message fileContent =
          .error "No message provided or found in message.txt" ∧
        Src.get_message message fileContent =
          .error "No message provided or found in message.txt") := by
  refine ⟨?_, ?_, ?_⟩
  · rintro m rfl hm
    exact ⟨by simp [WingmanGPT.get_message, hm], by simp [Src.get_message, hm]⟩
  · rintro (rfl | rfl) c rfl hc <;>
      exact ⟨by simp [WingmanGPT.get_message, hc], by simp [Src.get_message, hc]⟩
  · rintro (rfl | rfl) (rfl | rfl) <;>
      exact ⟨by simp [WingmanGPT.get_message], by simp [Src.get_message]⟩

/-- C8 (witness): with an empty flag value and an existing non-empty
fallback file, both versions resolve to the file content. -/
theorem c8_witness :
    WingmanGPT.get_message (some "") (some "from file") = .ok "from file" ∧
    Src.get_message (some "") (some "from file") = .ok "from file" :=
  (c8_message_precedence (some "") (some "from file")).2.1
    (Or.inr rfl) "from file" rfl (by decide)

/-- C9: whenever the completion call yields a raw response string, the
adapter of each version returns that string with its first and last
characters removed: the returned length is max(0, raw length minus 2),
and whenever the raw response splits as a first character, a middle,
and a last character, the returned text is exactly the middle. -/
theorem c9_strip (env : Env) (raw : String)
    (h : env.chatResponse = .ok raw) :
    ∃ out, WingmanGPT.get_response env = .ok out ∧
      Src.get_response env = .ok out ∧
      (out.length : Int) = max 0 ((raw.length : Int) - 2) ∧
      (∀ (a b : Char) (l : List Char),
        raw.data = a :: l ++ [b] → out.data = l) := by
  refine ⟨pySlice1m1 raw, ?_, ?_, ?_, ?_⟩
  · simp [WingmanGPT.get_response, h]
  · simp [Src.get_response, h]
  · have hlen := pySlice1m1_length raw
    rcases le_or_lt 2 raw.length with hle | hlt
    · rw [max_eq_right (by omega)]
      omega
    · rw [max_eq_left (by omega)]
      omega
  · intro a b l hl
    show ((raw.data.drop 1).dropLast) = l
    rw [hl]
    simp [List.dropLast_concat]

/-- C9 (witness): on the raw completion string consisting of "hey" in
double quotes, both adapters return "hey", of length max(0, 5 - 2). -/
theorem c9_witness :
    ∃ out, WingmanGPT.get_response c9_env = .ok out ∧
      Src.get_response c9_env = .ok out ∧
      (out.length : Int) = max 0 (("\"hey\"".length : Int) - 2) ∧
      (∀ (a b : Char) (l : List Char),
        "\"hey\"".data = a :: l ++ [b] → out.data = l) :=
  c9_strip c9_env "\"hey\"" rfl

/-- C10: the phone-number validators of the two source versions are
extensionally equal — on every input string they return the same
result, accepting or rejecting together. -/
theorem c10_phone_equiv :
    ∀ n : String, WingmanGPT.get_phone_number n = Src.get_phone_number n :=
  fun _ => rfl
